import Mathlib

/-!
Shallow embedding of pycloudstack/vmm.py, class VMMLibvirt: the libvirt-backed
virtual machine manager of tdx-tools.  The embedding covers the parts of the
module that the verified properties are about: construction of the guest
configuration document (method _prepare_domain_xml), the lifecycle operations
(start, resume, destroy), the power-state mapping (method state), MAC-to-IP
resolution (method get_ip with its bounded ARP polling loop), and the QEMU
guest-agent file-read relay (method qemu_agent_file_read).

External collaborators are abstracted at their interfaces, exactly as the
source consumes them: the libvirt connection is represented by the domain
facts the code reads (registered or not, live power-state code), the re module
by the optional result of each search, the arp command by the per-attempt list
of parsed lines, and the guest agent by the three responses of one file
operation.  Python exceptions are modelled with an Except result type; a value
that Python code can only reach by raising is an Except.error.
-/

set_option autoImplicit false

namespace Vmm

/-- Python exception classes that the embedded code can raise. -/
inductive PyExc where
  | libvirtError
  | osError
  | attributeError
  | assertionError
  deriving DecidableEq

/-! ### libvirt domain state codes (constants of the libvirt binding) -/

/-- libvirt constant VIR_DOMAIN_RUNNING. -/
def VIR_DOMAIN_RUNNING : Nat := 1

/-- libvirt constant VIR_DOMAIN_PAUSED. -/
def VIR_DOMAIN_PAUSED : Nat := 3

/-- libvirt constant VIR_DOMAIN_SHUTDOWN (shutdown in progress). -/
def VIR_DOMAIN_SHUTDOWN : Nat := 4

/-- libvirt constant VIR_DOMAIN_SHUTOFF. -/
def VIR_DOMAIN_SHUTOFF : Nat := 5

/-- Modelled from the spec: the VM_STATE_* constants are imported from
vmparam.py, which is not part of the excerpt; only their identity matters.
The source's state() returns one of the four imported constants or the
Python literal None, so its result type is Option VMState, with Option.none
standing for the None ("UNKNOWN") outcome. -/
inductive VMState where
  | running
  | pause
  | shutdown_in_progress
  | shutdown
  deriving DecidableEq

/-- VMMLibvirt.state: map the live libvirt power-state code of the domain
onto the VM_STATE_* constants; any unmapped code falls through to the final
`return None`. -/
def state (domState : Nat) : Option VMState :=
  if domState = VIR_DOMAIN_RUNNING then some VMState.running
  else if domState = VIR_DOMAIN_PAUSED then some VMState.pause
  else if domState = VIR_DOMAIN_SHUTDOWN then some VMState.shutdown_in_progress
  else if domState = VIR_DOMAIN_SHUTOFF then some VMState.shutdown
  else none

/-- VMMLibvirt.is_running: the live state code equals VIR_DOMAIN_RUNNING. -/
def is_running (domState : Nat) : Bool :=
  domState == VIR_DOMAIN_RUNNING

/-- VMMLibvirt.is_shutoff: the live state code equals VIR_DOMAIN_SHUTOFF. -/
def is_shutoff (domState : Nat) : Bool :=
  domState == VIR_DOMAIN_SHUTOFF

/-- The hypervisor-side calls a lifecycle operation can issue on the domain
handle. -/
inductive DomAction where
  | create
  | resume
  | suspend
  deriving DecidableEq

/-- VMMLibvirt.resume: `if not self.is_running(): dom.resume()` — the list of
hypervisor calls issued, given the domain's live power-state code. -/
def resume_calls (domState : Nat) : List DomAction :=
  if !(is_running domState) then [DomAction.resume] else []

/-- VMMLibvirt.start: `if self.is_shutoff(): dom.create() else:
self.resume()` — the list of hypervisor calls issued, given the domain's live
power-state code. -/
def start_calls (domState : Nat) : List DomAction :=
  if is_shutoff domState then [DomAction.create] else resume_calls domState

/-! ### destroy -/

/-- The facts about the host that VMMLibvirt.destroy reads and writes: the
libvirt connection (never None after a successful constructor), whether the
domain is still registered, whether it is running, whether the persisted
domain XML file exists, and whether deleting that file fails with an
OSError/IOError. -/
structure HostWorld where
  connOk : Bool
  domainDefined : Bool
  domainRunning : Bool
  xmlFileExists : Bool
  removeRaises : Bool
  deriving DecidableEq

/-- VMMLibvirt._get_domain: `assert self._virt_conn is not None` (an
AssertionError, not a libvirtError), then lookupByUUIDString, which raises
libvirtError when no domain with that UUID is registered. -/
def get_domain (w : HostWorld) : Except PyExc Unit :=
  if w.connOk = false then Except.error PyExc.assertionError
  else if w.domainDefined = false then Except.error PyExc.libvirtError
  else Except.ok ()

/-- The try block of VMMLibvirt.destroy: look up the domain, hard power it off
(dom.destroy raises libvirtError when the domain is not running), then
deregister it with VIR_DOMAIN_UNDEFINE_NVRAM, discarding the NVRAM file
association. -/
def destroy_try (w : HostWorld) : Except PyExc HostWorld :=
  match get_domain w with
  | Except.error e => Except.error e
  | Except.ok _ =>
    if w.domainRunning = false then Except.error PyExc.libvirtError
    else Except.ok { w with domainRunning := false, domainDefined := false }

/-- os.remove on the domain XML file: deletes it, or raises OSError. -/
def os_remove (w : HostWorld) : Except PyExc HostWorld :=
  if w.removeRaises then Except.error PyExc.osError
  else Except.ok { w with xmlFileExists := false }

/-- The file-deletion half of VMMLibvirt.destroy: `if
os.path.exists(self._xml.filepath)` then os.remove guarded by `except (OSError,
IOError)`, which only logs a warning. -/
def destroy_files (w : HostWorld) : Except PyExc HostWorld :=
  if w.xmlFileExists then
    match os_remove w with
    | Except.ok w2 => Except.ok w2
    | Except.error PyExc.osError => Except.ok w
    | Except.error e => Except.error e
  else Except.ok w

/-- VMMLibvirt.destroy: the try block guarded by `except libvirt.libvirtError`
(which only logs a warning), followed by best-effort deletion of the persisted
XML file.  Exceptions other than libvirtError escape the first guard. -/
def destroy (w : HostWorld) : Except PyExc HostWorld :=
  match destroy_try w with
  | Except.ok w1 => destroy_files w1
  | Except.error PyExc.libvirtError => destroy_files w
  | Except.error e => Except.error e

/-! ### Guest specification and configuration document -/

/-- The VM_TYPE_* constants from vmparam.py: guest flavor. -/
inductive VMType where
  | legacy
  | efi
  | td
  | sgx
  deriving DecidableEq

/-- Boot mode: BOOT_TYPE_GRUB from vmparam.py, or the direct-kernel mode (any
value different from BOOT_TYPE_GRUB, since the source only tests equality with
BOOT_TYPE_GRUB). -/
inductive BootType where
  | grub
  | direct
  deriving DecidableEq

/-- The fields of the guest instance (self.vminst) that _prepare_domain_xml
reads.  Externally supplied and read-only for this core. -/
structure VMGuest where
  vmtype : VMType
  name : String
  vmid : String
  memsize : Nat
  imagepath : String
  vcpus : Nat
  sockets : Nat
  cores : Nat
  threads : Nat
  hugepages : Bool
  hugepage_size : Nat
  vsock : Bool
  vsock_cid : Nat
  boot : BootType
  kernel : String
  cmdline : String
  ssh_forward_port : Nat
  deriving DecidableEq

/-- The configuration document produced by the VirtXml collaborator: the
settable fields _prepare_domain_xml writes, at their interface.  A field the
template may or may not define is an Option, with the setter writing some. -/
structure VirtXml where
  template : String
  name : String
  memory : Nat
  uuid : String
  imagefile : String
  vcpu : Nat
  sockets : Nat
  cores : Nat
  threads : Nat
  loader : Option String
  nvram : Option String
  cpu_params : Option String
  kernel : Option String
  cmdline : Option String
  hugepage_params : Option Nat
  vsock_cid : Option Nat
  ssh_forward_port : Option Nat
  deriving DecidableEq

/-- Firmware path constant BIOS_BINARY_LEGACY from vmparam.py (value
irrelevant to the claims, only its identity). -/
def BIOS_BINARY_LEGACY : String := "/usr/share/qemu/bios.bin"

/-- Firmware path constant BIOS_OVMF_CODE from vmparam.py. -/
def BIOS_OVMF_CODE : String := "/usr/share/qemu/OVMF_CODE.fd"

/-- Firmware path constant BIOS_OVMF_VARS from vmparam.py: the canonical OVMF
variables template that gets copied per VM. -/
def BIOS_OVMF_VARS : String := "/usr/share/qemu/OVMF_VARS.fd"

/-- A host-level side effect performed during configuration-document
construction. -/
inductive Effect where
  | copyFile (src : String) (dst : String)
  deriving DecidableEq

/-- Lines 151-157 of _prepare_domain_xml: memory (MB converted to the
template's KiB unit), identity, image path and CPU topology. -/
def apply_basic (g : VMGuest) (x : VirtXml) : VirtXml :=
  { x with
    memory := g.memsize * 1024 * 1024
    uuid := g.vmid
    imagefile := g.imagepath
    vcpu := g.vcpus
    sockets := g.sockets
    cores := g.cores
    threads := g.threads }

/-- `if self.vminst.hugepages: xmlobj.set_hugepage_params(...)`. -/
def apply_hugepages (g : VMGuest) (x : VirtXml) : VirtXml :=
  if g.hugepages then { x with hugepage_params := some g.hugepage_size } else x

/-- `if self.vminst.vsock: xmlobj.set_vsock(...)`. -/
def apply_vsock (g : VMGuest) (x : VirtXml) : VirtXml :=
  if g.vsock then { x with vsock_cid := some g.vsock_cid } else x

/-- The flavor branch of _prepare_domain_xml (lines 170-189): loader, NVRAM
and CPU feature string per VM type.  cpuBaseFreq is the value of
DUT.get_cpu_base_freq() and ovmfVars the path of the per-VM OVMF_VARS copy. -/
def apply_flavor (g : VMGuest) (cpuBaseFreq : Nat) (ovmfVars : String)
    (x : VirtXml) : VirtXml :=
  match g.vmtype with
  | VMType.legacy =>
    { x with
      loader := some BIOS_BINARY_LEGACY
      cpu_params := some "host,-kvm-steal-time,pmu=off" }
  | VMType.efi =>
    { x with
      loader := some BIOS_OVMF_CODE
      nvram := some ovmfVars
      cpu_params := some "host,-kvm-steal-time,pmu=off" }
  | VMType.sgx =>
    { x with
      loader := some BIOS_BINARY_LEGACY
      cpu_params := some
        "host,host-phys-bits,+sgx,+sgx-debug,+sgx-exinfo,+sgx-kss,+sgx-mode64,+sgx-provisionkey,+sgx-tokenkey,+sgx1,+sgx2,+sgxlc" }
  | VMType.td =>
    { x with
      loader := some BIOS_OVMF_CODE
      nvram := some ovmfVars
      cpu_params := some
        (if cpuBaseFreq < 1000000 then
          "host,-kvm-steal-time,pmu=off,tsc-freq=1000000000"
        else "host,-kvm-steal-time,pmu=off") }

/-- The boot branch of _prepare_domain_xml (lines 191-196): GRUB boot clears
kernel and cmdline; direct boot sets them from the guest instance (cmdline
through str(), the identity on strings). -/
def apply_boot (g : VMGuest) (x : VirtXml) : VirtXml :=
  if g.boot = BootType.grub then { x with kernel := none, cmdline := none }
  else { x with kernel := some g.kernel, cmdline := some g.cmdline }

/-- `xmlobj.enable_ssh_forward_port(self.vminst.ssh_forward_port)`. -/
def apply_ssh (g : VMGuest) (x : VirtXml) : VirtXml :=
  { x with ssh_forward_port := some g.ssh_forward_port }

/-- VMMLibvirt._prepare_domain_xml, applied to the document cloned from the
flavor's template (base).  copyDir stands for the directory of the module
file (os.path.dirname(os.path.realpath(primary module file))).  Returns the
rendered document together with the host-level effects performed: the
unconditional `cp BIOS_OVMF_VARS OVMF_VARS.<uuid>.fd` on line 162, executed
before the flavor branch for every VM type. -/
def prepare_domain_xml (base : VirtXml) (g : VMGuest) (cpuBaseFreq : Nat)
    (copyDir : String) : VirtXml × List Effect :=
  let x0 := apply_basic g base
  let ovmfVars := copyDir ++ "/" ++ ("OVMF_VARS." ++ x0.uuid ++ ".fd")
  let effects := [Effect.copyFile BIOS_OVMF_VARS ovmfVars]
  let x1 := apply_hugepages g x0
  let x2 := apply_vsock g x1
  let x3 := apply_flavor g cpuBaseFreq ovmfVars x2
  let x4 := apply_boot g x3
  (apply_ssh g x4, effects)

/-! ### IP discovery (VMMLibvirt.get_ip) -/

/-- Module constant ARP_INTERVAL: the retry budget of the polling loop. -/
def ARP_INTERVAL : Nat := 120

/-- One line of `arp -a` output, abstracted to what the two regular-expression
searches of the loop body extract from it: the optional IPv4 address and the
optional MAC address found in the line. -/
structure ArpLine where
  ip : Option String
  mac : Option String
  deriving DecidableEq

/-- The inner for-loop of get_ip over the lines of one `arp -a` invocation:
skip a line when either search fails; when the line's MAC equals the VM's MAC,
record the line's IP into self._ip (the last matching line of the table
wins).  ip0 is the value of self._ip when the pass starts. -/
def scan_lines (vmMac : String) (ip0 : Option String) (lines : List ArpLine) :
    Option String :=
  match lines with
  | [] => ip0
  | l :: rest =>
    match l.ip, l.mac with
    | some ipaddr, some macaddr =>
      scan_lines vmMac (if macaddr = vmMac then some ipaddr else ip0) rest
    | some _, none => scan_lines vmMac ip0 rest
    | none, _ => scan_lines vmMac ip0 rest

/-- The while-loop of get_ip.  retry is the remaining budget and ip the
current value of self._ip; tables holds, per remaining attempt, the parsed
lines of that attempt's `arp -a` invocation (an exhausted stream reads as an
empty table).  Returns the final self._ip together with the number of
sampling attempts performed and the number of one-second sleeps: the loop
breaks out — before decrementing and sleeping — as soon as self._ip is
non-None after a pass. -/
def arp_loop (vmMac : String) (retry : Nat) (ip : Option String)
    (tables : List (List ArpLine)) : Option String × Nat × Nat :=
  match retry with
  | 0 => (ip, 0, 0)
  | r + 1 =>
    let ip2 := scan_lines vmMac ip (tables.headD [])
    if ip2.isSome then (ip2, 1, 0)
    else
      let res := arp_loop vmMac r ip2 tables.tail
      (res.1, res.2.1 + 1, res.2.2 + 1)

/-- VMMLibvirt.get_ip.  cached is self._ip on entry; macSearch is the result
of `re.search("<mac address=...", dom.XMLDesc(0))`, abstracted to its one
captured group.  When that search fails, Python evaluates None.groups() and
raises AttributeError; when it succeeds, .groups() yields a one-element tuple,
so the `if vm_mac_address is None` guard below it can never fire (kept here as
the provably dead match arm).  Returns the final self._ip (which is both the
return value and the new cache) with the attempt and sleep counts of the
loop. -/
def get_ip (cached : Option String) (forceRefresh : Bool)
    (macSearch : Option String) (tables : List (List ArpLine)) :
    Except PyExc (Option String × Nat × Nat) :=
  if !forceRefresh && cached.isSome then Except.ok (cached, 0, 0)
  else
    match macSearch with
    | none => Except.error PyExc.attributeError
    | some m =>
      match (some [m] : Option (List String)) with
      | none => Except.ok (none, 0, 0)
      | some groups =>
        Except.ok (arp_loop (groups.headD "") ARP_INTERVAL cached tables)

/-! ### QEMU guest-agent file read (VMMLibvirt.qemu_agent_file_read) -/

/-- One guest-agent response, abstracted to what the method inspects: whether
the response contains a return field (both the assertion's substring test and
the json key access), and the value the method would extract from under it
(the file descriptor for the open step, the buf-b64 buffer for the read
step). -/
structure AgentResp where
  hasReturn : Bool
  payload : String
  deriving DecidableEq

/-- The three agent round trips of one file operation. -/
inductive AgentStep where
  | openStep
  | readStep
  | writeStep
  | closeStep
  deriving DecidableEq

/-- How qemu_agent_file_read fails: an assertion failure at one of the three
steps, or a KeyError from the final json access to the return field of the
read response. -/
inductive AgentErr where
  | assertFail (step : AgentStep)
  | keyError
  deriving DecidableEq

/-- VMMLibvirt.qemu_agent_file_read, as a function of the agent's three
responses.  After the open step, ret holds the open response and the code
asserts on it.  The read response is bound to the variable content, but the
assertion after the read step (source line 448) re-checks ret — which still
holds the OPEN response — not content.  The close step rebinds ret to the
close response and asserts on it.  Finally json.loads(content) and the
subscript by the return key, which raises KeyError when the read response has
no return field. -/
def qemu_agent_file_read (openResp readResp closeResp : AgentResp) :
    Except AgentErr String :=
  if openResp.hasReturn = false then
    Except.error (AgentErr.assertFail AgentStep.openStep)
  else
    if openResp.hasReturn = false then
      Except.error (AgentErr.assertFail AgentStep.readStep)
    else if closeResp.hasReturn = false then
      Except.error (AgentErr.assertFail AgentStep.closeStep)
    else if readResp.hasReturn = false then
      Except.error AgentErr.keyError
    else Except.ok readResp.payload

/-- VMMLibvirt.qemu_agent_file_write, same shape: every step asserts on the
response of that same step (ret is rebound at each round trip). -/
def qemu_agent_file_write (openResp writeResp closeResp : AgentResp) :
    Except AgentErr Bool :=
  if openResp.hasReturn = false then
    Except.error (AgentErr.assertFail AgentStep.openStep)
  else if writeResp.hasReturn = false then
    Except.error (AgentErr.assertFail AgentStep.writeStep)
  else if closeResp.hasReturn = false then
    Except.error (AgentErr.assertFail AgentStep.closeStep)
  else Except.ok true

/-- The feature string of a configuration document contains a given feature
substring (False when no CPU feature string was set). -/
def contains_feature (o : Option String) (feat : String) : Prop :=
  match o with
  | none => False
  | some s => feat.data <:+: s.data

instance (o : Option String) (feat : String) :
    Decidable (contains_feature o feat) := by
  unfold contains_feature
  match o with
  | none => exact inferInstanceAs (Decidable False)
  | some s => exact inferInstanceAs (Decidable (feat.data <:+: s.data))

/-! ### Sample inputs used by the witness theorems -/

/-- A sample document as cloned from a template: no optional field set. -/
def sample_base : VirtXml :=
  { template := "legacy-base", name := "vm0", memory := 0, uuid := ""
    imagefile := "", vcpu := 0, sockets := 0, cores := 0, threads := 0
    loader := none, nvram := none, cpu_params := none, kernel := none
    cmdline := none, hugepage_params := none, vsock_cid := none
    ssh_forward_port := none }

/-- A sample legacy guest instance. -/
def sample_guest : VMGuest :=
  { vmtype := VMType.legacy, name := "vm0", vmid := "uuid-1", memsize := 2
    imagepath := "/img.qcow2", vcpus := 1, sockets := 1, cores := 1
    threads := 1, hugepages := false, hugepage_size := 0, vsock := false
    vsock_cid := 0, boot := BootType.grub, kernel := "/boot/vmlinuz"
    cmdline := "console=hvc0", ssh_forward_port := 10026 }

/-- The sample guest with the trusted-execution flavor. -/
def sample_td_guest : VMGuest :=
  { sample_guest with vmtype := VMType.td }

/-! ### Helper lemmas about the configuration-document construction -/

theorem apply_basic_nvram (g : VMGuest) (x : VirtXml) :
    (apply_basic g x).nvram = x.nvram := rfl

theorem apply_hugepages_nvram (g : VMGuest) (x : VirtXml) :
    (apply_hugepages g x).nvram = x.nvram := by
  unfold apply_hugepages; split <;> rfl

theorem apply_vsock_nvram (g : VMGuest) (x : VirtXml) :
    (apply_vsock g x).nvram = x.nvram := by
  unfold apply_vsock; split <;> rfl

theorem apply_boot_nvram (g : VMGuest) (x : VirtXml) :
    (apply_boot g x).nvram = x.nvram := by
  unfold apply_boot; split <;> rfl

theorem apply_ssh_nvram (g : VMGuest) (x : VirtXml) :
    (apply_ssh g x).nvram = x.nvram := rfl

theorem apply_boot_cpu_params (g : VMGuest) (x : VirtXml) :
    (apply_boot g x).cpu_params = x.cpu_params := by
  unfold apply_boot; split <;> rfl

theorem apply_ssh_cpu_params (g : VMGuest) (x : VirtXml) :
    (apply_ssh g x).cpu_params = x.cpu_params := rfl

theorem apply_ssh_kernel (g : VMGuest) (x : VirtXml) :
    (apply_ssh g x).kernel = x.kernel := rfl

theorem apply_ssh_cmdline (g : VMGuest) (x : VirtXml) :
    (apply_ssh g x).cmdline = x.cmdline := rfl

theorem apply_boot_kernel (g : VMGuest) (x : VirtXml) :
    (apply_boot g x).kernel
      = if g.boot = BootType.grub then none else some g.kernel := by
  unfold apply_boot; split <;> simp [*]

theorem apply_boot_cmdline (g : VMGuest) (x : VirtXml) :
    (apply_boot g x).cmdline
      = if g.boot = BootType.grub then none else some g.cmdline := by
  unfold apply_boot; split <;> simp [*]

/-! ### Claim theorems -/

/-- Claim C5: for every guest specification and every flavor, the rendered
configuration document has kernel and cmdline both cleared to None when the
boot mode is GRUB, and both set to the guest specification's kernel and
cmdline when the boot mode is direct-kernel. -/
theorem boot_fields_follow_boot_mode (base : VirtXml) (g : VMGuest)
    (cpuBaseFreq : Nat) (copyDir : String) :
    ((prepare_domain_xml base g cpuBaseFreq copyDir).1.kernel
      = if g.boot = BootType.grub then none else some g.kernel)
    ∧ ((prepare_domain_xml base g cpuBaseFreq copyDir).1.cmdline
      = if g.boot = BootType.grub then none else some g.cmdline) := by
  constructor <;>
    simp [prepare_domain_xml, apply_ssh_kernel, apply_ssh_cmdline,
      apply_boot_kernel, apply_boot_cmdline]

/-- Claim C6: for the trusted-execution flavor, the CPU feature string of the
rendered document contains the synthetic pin tsc-freq=1000000000 exactly when
the host base CPU frequency is below 1000000, and otherwise it is the plain
baseline host,-kvm-steal-time,pmu=off with no pin. -/
theorem td_tsc_pin_iff (base : VirtXml) (g : VMGuest) (cpuBaseFreq : Nat)
    (copyDir : String) (h : g.vmtype = VMType.td) :
    (contains_feature
        (prepare_domain_xml base g cpuBaseFreq copyDir).1.cpu_params
        "tsc-freq=1000000000"
      ↔ cpuBaseFreq < 1000000)
    ∧ (1000000 ≤ cpuBaseFreq →
        (prepare_domain_xml base g cpuBaseFreq copyDir).1.cpu_params
          = some "host,-kvm-steal-time,pmu=off") := by
  have hc : (prepare_domain_xml base g cpuBaseFreq copyDir).1.cpu_params
      = some (if cpuBaseFreq < 1000000 then
          "host,-kvm-steal-time,pmu=off,tsc-freq=1000000000"
        else "host,-kvm-steal-time,pmu=off") := by
    simp [prepare_domain_xml, apply_ssh_cpu_params, apply_boot_cpu_params,
      apply_flavor, h]
  constructor
  · rw [hc]
    by_cases hf : cpuBaseFreq < 1000000
    · rw [if_pos hf]
      exact iff_of_true (by decide) hf
    · rw [if_neg hf]
      exact iff_of_false (by decide) hf
  · intro hge
    rw [hc, if_neg (by omega)]

/-- Witness for C6: at host base frequency 999999 the trusted-execution CPU
feature string contains the synthetic TSC pin. -/
theorem td_tsc_pin_iff_witness :
    contains_feature
      (prepare_domain_xml sample_base sample_td_guest 999999 "/mod").1.cpu_params
      "tsc-freq=1000000000" :=
  (td_tsc_pin_iff sample_base sample_td_guest 999999 "/mod" rfl).1.mpr
    (by decide)

/-- Claim C10: for every flavor — including legacy and SGX, which never set
the nvram field — backend construction copies the OVMF variables template to
the per-identity file OVMF_VARS.(uuid).fd; the copy is not limited to the EFI
and TD flavors that attach it as NVRAM. -/
theorem ovmf_vars_copied_unconditionally (base : VirtXml) (g : VMGuest)
    (cpuBaseFreq : Nat) (copyDir : String) :
    (prepare_domain_xml base g cpuBaseFreq copyDir).2
      = [Effect.copyFile BIOS_OVMF_VARS
          (copyDir ++ "/" ++ ("OVMF_VARS." ++ g.vmid ++ ".fd"))]
    ∧ (g.vmtype = VMType.legacy ∨ g.vmtype = VMType.sgx →
        (prepare_domain_xml base g cpuBaseFreq copyDir).1.nvram
          = base.nvram) := by
  constructor
  · simp [prepare_domain_xml, apply_basic]
  · intro h
    rcases h with h | h <;>
      simp [prepare_domain_xml, apply_ssh_nvram, apply_boot_nvram,
        apply_flavor, h, apply_vsock_nvram, apply_hugepages_nvram,
        apply_basic_nvram]

/-- Witness for C10: the legacy sample guest still gets the OVMF variables
copy, and its document's nvram field stays untouched. -/
theorem ovmf_vars_copied_unconditionally_witness :
    (prepare_domain_xml sample_base sample_guest 0 "/mod").2
      = [Effect.copyFile BIOS_OVMF_VARS "/mod/OVMF_VARS.uuid-1.fd"]
    ∧ (prepare_domain_xml sample_base sample_guest 0 "/mod").1.nvram
      = sample_base.nvram :=
  ⟨(ovmf_vars_copied_unconditionally sample_base sample_guest 0 "/mod").1,
   (ovmf_vars_copied_unconditionally sample_base sample_guest 0 "/mod").2
     (Or.inl rfl)⟩

/-- Claim C3: state() maps the four handled libvirt power-state codes to the
corresponding VM_STATE_* values, and every other code falls through to the
final `return None` — the result the spec calls UNKNOWN — rather than
failing. -/
theorem state_mapping :
    state VIR_DOMAIN_RUNNING = some VMState.running
    ∧ state VIR_DOMAIN_PAUSED = some VMState.pause
    ∧ state VIR_DOMAIN_SHUTDOWN = some VMState.shutdown_in_progress
    ∧ state VIR_DOMAIN_SHUTOFF = some VMState.shutdown
    ∧ ∀ s : Nat, s ≠ VIR_DOMAIN_RUNNING → s ≠ VIR_DOMAIN_PAUSED →
        s ≠ VIR_DOMAIN_SHUTDOWN → s ≠ VIR_DOMAIN_SHUTOFF →
        state s = none := by
  refine ⟨rfl, rfl, rfl, rfl, ?_⟩
  intro s h1 h2 h3 h4
  simp [state, h1, h2, h3, h4]

/-- Witness for C3: the running code maps to running, and the unmapped codes
0 (NOSTATE) and 6 (CRASHED) map to the None result. -/
theorem state_mapping_witness :
    state 1 = some VMState.running ∧ state 0 = none ∧ state 6 = none :=
  ⟨state_mapping.1,
   state_mapping.2.2.2.2 0 (by decide) (by decide) (by decide) (by decide),
   state_mapping.2.2.2.2 6 (by decide) (by decide) (by decide) (by decide)⟩

/-- Claim C7: start() on a shut-off domain issues exactly one fresh power-on
(dom.create); in every other state it delegates to resume, which issues
dom.resume only when the domain is not currently running — and never issues a
duplicate create. -/
theorem start_create_vs_resume :
    start_calls VIR_DOMAIN_SHUTOFF = [DomAction.create]
    ∧ ∀ s : Nat, s ≠ VIR_DOMAIN_SHUTOFF →
        start_calls s = resume_calls s
        ∧ DomAction.create ∉ start_calls s
        ∧ (s = VIR_DOMAIN_RUNNING → start_calls s = [])
        ∧ (s ≠ VIR_DOMAIN_RUNNING → start_calls s = [DomAction.resume]) := by
  refine ⟨rfl, ?_⟩
  intro s hs
  have hso : is_shutoff s = false := by
    simp only [is_shutoff, beq_eq_false_iff_ne, ne_eq]
    exact hs
  refine ⟨by simp [start_calls, hso], ?_, ?_, ?_⟩
  · simp only [start_calls, hso, Bool.false_eq_true, if_false, resume_calls]
    split <;> simp
  · intro hr
    subst hr
    rfl
  · intro hr
    have hnr : is_running s = false := by
      simp only [is_running, beq_eq_false_iff_ne, ne_eq]
      exact hr
    simp [start_calls, hso, resume_calls, hnr]

/-- Witness for C7: shutoff (5) gets a fresh create, paused (3) gets a single
resume, running (1) gets no hypervisor call at all. -/
theorem start_create_vs_resume_witness :
    start_calls 5 = [DomAction.create]
    ∧ start_calls 3 = [DomAction.resume]
    ∧ start_calls 1 = [] :=
  ⟨start_create_vs_resume.1,
   (start_create_vs_resume.2 3 (by decide)).2.2.2 (by decide),
   (start_create_vs_resume.2 1 (by decide)).2.2.1 rfl⟩

/-- Claim C8: given the constructor invariant that the libvirt connection is
established, destroy() returns without raising from every prior host state —
hypervisor errors and filesystem errors are caught and logged — and calling
destroy() again on the resulting state does not raise either. -/
theorem destroy_never_raises_twice (w : HostWorld) (h : w.connOk = true) :
    ∃ w1, destroy w = Except.ok w1 ∧ ∃ w2, destroy w1 = Except.ok w2 := by
  obtain ⟨c, dd, dr, xf, rr⟩ := w
  cases c
  · exact Bool.noConfusion h
  · cases dd <;> cases dr <;> cases xf <;> cases rr <;> exact ⟨_, rfl, _, rfl⟩

/-- Witness for C8: destroying a registered running domain with an existing
XML file succeeds, and destroying again afterwards succeeds too. -/
theorem destroy_never_raises_twice_witness :
    ∃ w1, destroy ⟨true, true, true, true, false⟩ = Except.ok w1
      ∧ ∃ w2, destroy w1 = Except.ok w2 :=
  destroy_never_raises_twice ⟨true, true, true, true, false⟩ rfl

/-- Claim C4 (code bug): with an open response that has a return field, a read
response that LACKS one, and a close response that has one, the file-read
relay does not fail the read step's assertion — the assertion on source line
448 re-checks the stale open response — and instead dies later with a
KeyError when json.loads(content) is subscripted by the return key. -/
theorem qemu_agent_file_read_stale_assert :
    qemu_agent_file_read ⟨true, "3"⟩ ⟨false, ""⟩ ⟨true, ""⟩
      = Except.error AgentErr.keyError
    ∧ ∀ step : AgentStep,
        qemu_agent_file_read ⟨true, "3"⟩ ⟨false, ""⟩ ⟨true, ""⟩
          ≠ Except.error (AgentErr.assertFail step) := by
  refine ⟨rfl, ?_⟩
  intro step h
  rw [show qemu_agent_file_read ⟨true, "3"⟩ ⟨false, ""⟩ ⟨true, ""⟩
      = Except.error AgentErr.keyError from rfl] at h
  simp at h

/-- Claim C1 (code bug): when the MAC search over the live domain description
fails, get_ip evaluates None.groups() and raises AttributeError instead of
returning the None ("not found") result the dead guard below it was written
for. -/
theorem get_ip_mac_search_failure_raises :
    get_ip none false none [] = Except.error PyExc.attributeError := rfl

/-! ### Lemmas about the ARP polling loop -/

/-- A scanning pass started with a non-None self._ip leaves it non-None:
a matching line overwrites it with some IP, every other line keeps it. -/
theorem scan_lines_isSome (v : String) (lines : List ArpLine) :
    ∀ ip0 : Option String, ip0.isSome = true →
      (scan_lines v ip0 lines).isSome = true := by
  induction lines with
  | nil => intro ip0 h; exact h
  | cons l rest ih =>
    intro ip0 h
    obtain ⟨lip, lmac⟩ := l
    cases lip with
    | none => exact ih ip0 h
    | some ipaddr =>
      cases lmac with
      | none => exact ih ip0 h
      | some macaddr =>
        by_cases hm : macaddr = v
        · exact ih _ (by rw [if_pos hm]; rfl)
        · exact ih _ (by rw [if_neg hm]; exact h)

/-- Unfolding of one loop iteration. -/
theorem arp_loop_succ (v : String) (r : Nat) (ip : Option String)
    (tables : List (List ArpLine)) :
    arp_loop v (r + 1) ip tables
      = if (scan_lines v ip (tables.headD [])).isSome then
          (scan_lines v ip (tables.headD []), 1, 0)
        else
          ((arp_loop v r (scan_lines v ip (tables.headD [])) tables.tail).1,
           (arp_loop v r (scan_lines v ip (tables.headD []))
               tables.tail).2.1 + 1,
           (arp_loop v r (scan_lines v ip (tables.headD []))
               tables.tail).2.2 + 1) := rfl

/-- The loop breaks out of its very first iteration — one sampling attempt,
no sleep — as soon as that pass leaves self._ip non-None. -/
theorem arp_loop_early (v : String) (r : Nat) (ip : Option String)
    (tables : List (List ArpLine))
    (h : (scan_lines v ip (tables.headD [])).isSome = true) :
    arp_loop v (r + 1) ip tables
      = (scan_lines v ip (tables.headD []), 1, 0) := by
  rw [arp_loop_succ, if_pos h]

/-- The loop performs at most as many sampling attempts as its budget. -/
theorem arp_loop_attempts_le (v : String) :
    ∀ (r : Nat) (ip : Option String) (tables : List (List ArpLine)),
      (arp_loop v r ip tables).2.1 ≤ r := by
  intro r
  induction r with
  | zero => intro ip tables; exact Nat.le_refl 0
  | succ n ih =>
    intro ip tables
    rw [arp_loop_succ]
    split
    · exact Nat.succ_le_succ (Nat.zero_le n)
    · exact Nat.succ_le_succ (ih _ _)

/-- When self._ip starts None and no sampled table ever produces a match, the
loop spends its whole budget — one attempt and one one-second sleep per unit
of budget — and ends with self._ip still None. -/
theorem arp_loop_exhaust (v : String) :
    ∀ (r : Nat) (tables : List (List ArpLine)),
      (∀ t ∈ tables, scan_lines v none t = none) →
      arp_loop v r none tables = (none, r, r) := by
  intro r
  induction r with
  | zero => intro tables _; rfl
  | succ n ih =>
    intro tables h
    have hhead : scan_lines v none (tables.headD []) = none := by
      cases tables with
      | nil => rfl
      | cons t ts => exact h t (List.mem_cons_self t ts)
    have htail : ∀ t ∈ tables.tail, scan_lines v none t = none :=
      fun t ht => h t (List.mem_of_mem_tail ht)
    rw [arp_loop_succ, hhead]
    rw [if_neg (by simp)]
    rw [ih tables.tail htail]

/-- get_ip with a successful MAC search: either the cache hit answers with
zero attempts, or the loop runs with the full ARP_INTERVAL budget. -/
theorem get_ip_eq (cached : Option String) (force : Bool) (m : String)
    (tables : List (List ArpLine)) :
    get_ip cached force (some m) tables
      = if (!force && cached.isSome) = true then Except.ok (cached, 0, 0)
        else Except.ok (arp_loop m ARP_INTERVAL cached tables) := by
  unfold get_ip
  split <;> rfl

/-- Counterexample for C2: with force_refresh=True, an ARP table whose only
line carries a different MAC, and everything else identical, the previously
cached value alone decides the result — and the loop stops after a single
attempt of its 120-attempt budget, returning the stale cache. -/
theorem get_ip_force_refresh_counterexample :
    get_ip (some "10.0.0.5") true (some "aa:bb:cc:dd:ee:ff")
        [[⟨some "192.0.2.9", some "11:22:33:44:55:66"⟩]]
      = Except.ok (some "10.0.0.5", 1, 0)
    ∧ get_ip (some "10.0.0.6") true (some "aa:bb:cc:dd:ee:ff")
        [[⟨some "192.0.2.9", some "11:22:33:44:55:66"⟩]]
      = Except.ok (some "10.0.0.6", 1, 0) := ⟨rfl, rfl⟩

/-- Claim C2 as amended: a forced refresh re-extracts the MAC and always runs
exactly one ARP sampling pass when an IP is already cached: a match in that
pass overwrites the cache and is returned, and with no match the stale cached
value is returned — the loop exits after one attempt either way, because it
stops as soon as self._ip is non-None. -/
theorem get_ip_force_refresh_first_pass (old m : String)
    (tables : List (List ArpLine)) :
    get_ip (some old) true (some m) tables
      = Except.ok (scan_lines m (some old) (tables.headD []), 1, 0) := by
  have h1 : (scan_lines m (some old) (tables.headD [])).isSome = true :=
    scan_lines_isSome m (tables.headD []) (some old) rfl
  have h2 : get_ip (some old) true (some m) tables
      = Except.ok (arp_loop m ARP_INTERVAL (some old) tables) := rfl
  rw [h2, show ARP_INTERVAL = 119 + 1 from rfl,
    arp_loop_early m 119 (some old) tables h1]

/-- Claim C9: the polling loop of get_ip is bounded by ARP_INTERVAL = 120
sampling attempts; it stops after one attempt and zero sleeps as soon as a
pass records an IP; and with no previously cached IP and no match in any
sampled table it spends the whole budget — 120 attempts with a one-second
sleep after each — and returns the unresolved None result. -/
theorem get_ip_retry_bound (m : String) (cached : Option String)
    (force : Bool) (tables : List (List ArpLine)) :
    ARP_INTERVAL = 120
    ∧ (∀ res, get_ip cached force (some m) tables = Except.ok res →
        res.2.1 ≤ 120)
    ∧ ((scan_lines m none (tables.headD [])).isSome = true →
        get_ip none force (some m) tables
          = Except.ok (scan_lines m none (tables.headD []), 1, 0))
    ∧ ((∀ t ∈ tables, scan_lines m none t = none) →
        get_ip none force (some m) tables
          = Except.ok (none, 120, 120)) := by
  refine ⟨rfl, ?_, ?_, ?_⟩
  · intro res h
    rw [get_ip_eq] at h
    split at h
    · obtain rfl := Except.ok.inj h
      exact Nat.zero_le 120
    · obtain rfl := Except.ok.inj h
      exact arp_loop_attempts_le m ARP_INTERVAL cached tables
  · intro hscan
    rw [get_ip_eq, if_neg (by simp), show ARP_INTERVAL = 119 + 1 from rfl,
      arp_loop_early m 119 none tables hscan]
  · intro hnone
    rw [get_ip_eq, if_neg (by simp),
      arp_loop_exhaust m ARP_INTERVAL tables hnone]
    rfl

/-- Witness for C9: a first-pass match at the VM's MAC resolves in one
attempt; the unresolved branch is exercised with an empty table stream, where
the full budget of 120 attempts elapses. -/
theorem get_ip_retry_bound_witness :
    get_ip none false (some "aa:bb:cc:dd:ee:ff")
        [[⟨some "192.0.2.10", some "aa:bb:cc:dd:ee:ff"⟩]]
      = Except.ok (some "192.0.2.10", 1, 0)
    ∧ get_ip none false (some "aa:bb:cc:dd:ee:ff") []
      = Except.ok (none, 120, 120) :=
  ⟨(get_ip_retry_bound "aa:bb:cc:dd:ee:ff" none false
      [[⟨some "192.0.2.10", some "aa:bb:cc:dd:ee:ff"⟩]]).2.2.1 rfl,
   (get_ip_retry_bound "aa:bb:cc:dd:ee:ff" none false []).2.2.2
     (by intro t ht; cases ht)⟩

end Vmm
